import Mathlib

/-!
Verification of the tabular-loading component of the airline-merger
data-acquisition scripts (`src/data_utils.py`, `src/download_db1b.py`).

The Python functions are embedded shallowly:

* File content read as text is a `List String` of lines.
* `pandas.read_csv` on a text stream is `read_csv`: the first non-blank
  line is the header, split on the separator; each further non-blank line
  is a row.  When the first data row is wider than the header, pandas
  does not raise: the extra leading fields become an implicit index and
  the expected width grows to that row's width.  Only a later row wider
  than both the header and the first data row raises the parser error; a
  row with fewer fields is padded (pandas fills trailing missing fields
  with NaN, modelled as `""`); an input with no non-blank lines raises
  the empty-data error.  Cell values stay raw strings.
* A gzip-compressed file is modelled by its decompressed text lines
  (`gzipContent = some lines`); `gzipContent = none` means the file does
  not start with the two-byte signature `1F 8B`, so `_is_gzip` is
  `gzipContent.isSome`.
* Outcomes of foreign readers (`pyreadr.read_r`, `pandas.read_stata`,
  `json.load` + `pandas.DataFrame`) on the file's bytes are carried as
  `Except` fields of the file record.
* Raised Python exceptions become structured `Except` errors.
* Python string primitives (`str.upper`, `str.split`, `str.endswith`,
  `str.lower`) are given structurally recursive definitions over the
  character list of a `String`, so that every definition evaluates by
  kernel reduction on concrete inputs.
-/

deriving instance DecidableEq for Except

namespace AirlinesMerger

/-- Model of `str.upper()` (a character-wise case map, as for the ASCII column
names this code handles). -/
def strUpper (s : String) : String := String.mk (s.data.map Char.toUpper)

/-- Model of `str.lower()` (character-wise). -/
def strLower (s : String) : String := String.mk (s.data.map Char.toLower)

/-- Model of `str.endswith(pat)`. -/
def strEndsWith (s pat : String) : Bool := pat.data.isSuffixOf s.data

/-- Split a character list on a single separator character; splitting
the empty list yields one empty group, as `str.split(sep)` does. -/
def splitChar (sep : Char) : List Char → List (List Char)
  | [] => [[]]
  | c :: rest =>
    match splitChar sep rest with
    | [] => if c = sep then [[], []] else [[c]]
    | g :: gs => if c = sep then [] :: g :: gs else (c :: g) :: gs

/-- Model of `s.split(sep)` for a one-character separator (all separators used by
the loader — `,`, `|`, tab, `.`, `/` — are one character). -/
def strSplitOn (s : String) (sep : Char) : List String :=
  (splitChar sep s.data).map String.mk

/-- A rectangular parsed table: `pandas.DataFrame` as produced by the
readers, with named columns and rows of string cells. -/
structure RawTable where
  columns : List String
  rows : List (List String)
deriving DecidableEq

/-- Failures of `pandas.read_csv`: `EmptyDataError` (no columns to parse)
and `ParserError` (a data row with more fields than the header). -/
inductive CsvErr where
  | emptyData
  | parserError
deriving DecidableEq

/-- Padding: pandas fills trailing missing fields of a short row with NaN,
modelled as the empty string. -/
def padTo (n : Nat) (r : List String) : List String :=
  r ++ List.replicate (n - r.length) ""

/-- Shallow model of `pandas.read_csv(fh, sep=sep)` on a text stream
given as lines.  Blank lines are skipped (pandas default
`skip_blank_lines=True`); the first remaining line is the header.  When
the FIRST data row has more fields than the header, pandas does not
raise: the extra leading fields become an implicit (multi)index and the
expected field count grows to that row's width; the index labels live
outside `df.columns`, so the model drops those leading fields from
every row.  A later row with more fields than expected — wider than
both the header and the first data row — raises the parser error; a
shorter row is padded with NaN, modelled as `""`. -/
def read_csv (sep : Char) (content : List String) : Except CsvErr RawTable :=
  match content.filter (fun l => l ≠ "") with
  | [] => .error .emptyData
  | header :: body =>
    let cols := strSplitOn header sep
    match body.map (fun l => strSplitOn l sep) with
    | [] => .ok ⟨cols, []⟩
    | r1 :: rs =>
      if (r1 :: rs).all (fun r => r.length ≤ max cols.length r1.length) then
        .ok ⟨cols, (r1 :: rs).map
          (fun r => padTo cols.length (r.drop (r1.length - cols.length)))⟩
      else
        .error .parserError

/-- The values of the column named `name` (first occurrence), as
`df[name]` on a parsed table. -/
def RawTable.getCol (t : RawTable) (name : String) : List String :=
  match t.columns.findIdx? (fun c => c = name) with
  | some i => t.rows.map (fun r => r.getD i "")
  | none => []

/-- Lookup in a Python dict built by a comprehension over an association
list: a later binding of the same key overwrites an earlier one. -/
def dictLast (ps : List (String × String)) (key : String) : Option String :=
  (ps.reverse.find? (fun p => p.1 = key)).map (fun p => p.2)

/-- Model of `data_utils.py` lines 88-93 and `download_db1b.py` lines 230-235
(also the gzip-text fallback of `_load_r_file`, lines 200-204): try a
comma-delimited parse; on any parsing exception rewind and retry with
pipe delimiter.  There is no third attempt. -/
def commaThenPipe (lines : List String) : Except CsvErr RawTable :=
  match read_csv ',' lines with
  | .ok t => .ok t
  | .error _ => read_csv '|' lines

/-- The loader's output: an ordered rectangular collection of named
columns (`pd.DataFrame(selected)` built from an ordered dict). -/
structure Dataset where
  cols : List (String × List String)
deriving DecidableEq

/-- A ZIP archive: its path and its members in archive order, each a
name (directories end in `/`) and text content lines. -/
structure ZipArchive where
  path : String
  members : List (String × List String)
deriving DecidableEq

/-- Failures of `extract_columns_from_zip`: `RuntimeError` for an
archive with no non-directory member, a surfaced `pandas` parse failure,
and `KeyError` naming the missing columns of the given archive. -/
inductive ZipErr where
  | emptyArchive (path : String)
  | parse (e : CsvErr)
  | missingColumns (path : String) (names : List String)
deriving DecidableEq

/-- Lookup of the dict built by the comprehension over `df.columns`
mapping `c.upper()` to `c`, at `key`:
maps an upper-cased name to the original casing, last binding winning. -/
def colMapLookup (df : RawTable) (key : String) : Option String :=
  dictLast (df.columns.map (fun c => (strUpper c, c))) key

/-- Model of `data_utils.py` lines 96-102: the column-resolution phase of
`extract_columns_from_zip` after the member has been parsed into `df`.
`missing` collects every requested name whose upper-casing is absent
from `col_map`; if non-empty a `KeyError` naming all of them is raised,
otherwise the requested columns are selected, keyed by the requested
name, in request order. -/
def selectRequired (zip_path : String) (df : RawTable)
    (required_columns : List String) : Except ZipErr Dataset :=
  if required_columns.filter (fun col => (colMapLookup df (strUpper col)).isNone) = [] then
    .ok ⟨required_columns.map
      (fun col => (col, df.getCol ((colMapLookup df (strUpper col)).getD "")))⟩
  else
    .error (.missingColumns zip_path
      (required_columns.filter (fun col => (colMapLookup df (strUpper col)).isNone)))

/-- Model of `extract_columns_from_zip` (`data_utils.py` lines 61-102, duplicated
verbatim in `download_db1b.py` lines 201-244): take the first
non-directory member, parse it comma-then-pipe, then resolve and select
the required columns case-insensitively. -/
def extract_columns_from_zip (z : ZipArchive)
    (required_columns : List String) : Except ZipErr Dataset :=
  match z.members.filter (fun m => !(strEndsWith m.1 "/")) with
  | [] => .error (.emptyArchive z.path)
  | (_, lines) :: _ =>
    match commaThenPipe lines with
    | .error e => .error (.parse e)
    | .ok df => selectRequired z.path df required_columns

/-- An object in the dict returned by `pyreadr.read_r`: either already a
`pandas.DataFrame`, or some other object on which `pd.DataFrame(obj)`
either succeeds or raises. -/
inductive RObj where
  | df (t : RawTable)
  | nonDf (coerce : Except String RawTable)
deriving DecidableEq

/-- Failures of `_load_r_file`: the `pyreadr.read_r` exception, the
`ValueError` raised when the loaded dict holds nothing coercible to a
DataFrame, and the combined `ValueError` carrying both the original
error and the gzip-text fallback's error. -/
inductive RErr where
  | readr (msg : String)
  | noDataFrame
  | combined (orig : RErr) (gzipErr : CsvErr)
deriving DecidableEq

/-- An R data file as `_load_r_file` observes it: the outcome of
`pyreadr.read_r` on it, and its decompressed text lines when its first
two bytes are the gzip signature `1F 8B` (`none` otherwise). -/
structure RFile where
  readr : Except String (List (String × RObj))
  gzipContent : Option (List String)
deriving DecidableEq

/-- Model of `data_utils.py` lines 180-183: the loop preferring the first
DataFrame-like object of the `pyreadr` result. -/
def findDf : List (String × RObj) → Option RawTable
  | [] => none
  | (_, .df t) :: _ => some t
  | _ :: rest => findDf rest

/-- Model of `data_utils.py` lines 178-193: the body of the `try` block of
`_load_r_file` once `pyreadr.read_r` has returned `objs`: return the
first DataFrame; otherwise coerce the first object, swallowing a
coercion failure; otherwise raise the no-DataFrame `ValueError`. -/
def loadRObjects (objs : List (String × RObj)) : Except RErr RawTable :=
  match findDf objs with
  | some t => .ok t
  | none =>
    match objs with
    | [] => .error .noDataFrame
    | (_, .df t) :: _ => .ok t
    | (_, .nonDf (.ok t)) :: _ => .ok t
    | (_, .nonDf (.error _)) :: _ => .error .noDataFrame

/-- Model of `data_utils.py` lines 198-204: the gzip fallback opens the file as
gzipped text and parses it with comma, retrying with pipe. -/
def gzipTextFallback (lines : List String) : Except CsvErr RawTable :=
  commaThenPipe lines

/-- The whole `try` block of `_load_r_file` (`data_utils.py` lines
177-193): the `pyreadr.read_r` call followed by the object scan; any
exception of either phase becomes the error of this attempt. -/
def rAttempt (f : RFile) : Except RErr RawTable :=
  match f.readr with
  | .error e => .error (.readr e)
  | .ok objs => loadRObjects objs

/-- Model of `_load_r_file` (`data_utils.py` lines 167-210): attempt the
`pyreadr` load; on ANY exception of the `try` block (a `read_r` failure
or the no-DataFrame `ValueError`), if the file starts with the gzip
signature, fall back to parsing it as gzipped delimited text; a fallback
failure raises the combined error; without the signature the original
error is re-raised. -/
def _load_r_file (f : RFile) : Except RErr RawTable :=
  match rAttempt f with
  | .ok t => .ok t
  | .error e =>
    match f.gzipContent with
    | some lines =>
      match gzipTextFallback lines with
      | .ok t => .ok t
      | .error e2 => .error (.combined e e2)
    | none => .error e

/-- Failures of `_load_table_any`: a propagated `pandas` parse error, a
`pandas.read_stata` error, a propagated `_load_r_file` error, and the
final `ValueError` of the unrecognized-extension chain, which names the
path and the JSON-phase error only. -/
inductive AnyErr where
  | csv (e : CsvErr)
  | stata (e : String)
  | r (e : RErr)
  | unsupported (path : String) (jsonErr : String)
deriving DecidableEq

/-- A file on disk as `_load_table_any` observes it: its path, its
content read as text lines, its decompressed lines when gzip-signed,
and the outcomes of the foreign readers on its bytes. -/
structure AnyFile extends RFile where
  path : String
  textLines : List String
  stata : Except String RawTable
  jsonTable : Except String RawTable
deriving DecidableEq

/-- Model of `os.path.splitext(path)[1]`: the extension (with dot) of the last
path component, where leading dots of the component do not start one. -/
def fileExt (path : String) : String :=
  let base := (strSplitOn path '/').getLastD ""
  let stem := String.mk (base.data.dropWhile (fun c => c = '.'))
  if stem.data.contains '.' then "." ++ ((strSplitOn stem '.').getLastD "")
  else ""

/-- Model of `_load_table_any` (`data_utils.py` lines 213-240): dispatch on the
lower-cased extension — delimited text (decompressing transparently on
the gzip signature), Stata, R serialized object — and for an
unrecognized extension try a comma parse, then a JSON-array parse, then
raise the unsupported-format `ValueError`; that error carries the path
and the JSON attempt's exception (the comma failure is discarded by the
bare `except ... pass`). -/
def _load_table_any (f : AnyFile) : Except AnyErr RawTable :=
  if strLower (fileExt f.path) = ".csv" ∨ strLower (fileExt f.path) = ".tsv" then
    match f.gzipContent with
    | some lines =>
      (read_csv (if strLower (fileExt f.path) = ".csv" then ',' else '\t')
        lines).mapError .csv
    | none =>
      (read_csv (if strLower (fileExt f.path) = ".csv" then ',' else '\t')
        f.textLines).mapError .csv
  else if strLower (fileExt f.path) = ".dta" then
    f.stata.mapError .stata
  else if strLower (fileExt f.path) = ".rds" ∨ strLower (fileExt f.path) = ".rdata"
      ∨ strLower (fileExt f.path) = ".rda" ∨ strLower (fileExt f.path) = ".r" then
    (_load_r_file f.toRFile).mapError .r
  else
    match read_csv ',' f.textLines with
    | .ok t => .ok t
    | .error _ =>
      match f.jsonTable with
      | .ok t => .ok t
      | .error e => .error (.unsupported f.path e)

/-! Helper lemmas -/

/-- The dict `col_map` has no binding for `key` exactly when no source column
upper-cases to `key`. -/
theorem colMapLookup_isNone_iff (df : RawTable) (key : String) :
    (colMapLookup df key).isNone = true ↔ ∀ c ∈ df.columns, strUpper c ≠ key := by
  simp [colMapLookup, dictLast, Option.isNone_iff_eq_none, Option.map_eq_none',
    List.find?_eq_none, List.mem_reverse, List.mem_map]

/-- Stepping lemma: when the archive's first non-directory member parses
(comma, falling back to pipe) into `df`, extraction reduces to the
column-resolution phase on `df`. -/
theorem extract_eq_select (z : ZipArchive) (req : List String)
    (name : String) (lines : List String) (rest : List (String × List String))
    (df : RawTable)
    (hmem : z.members.filter (fun m => !(strEndsWith m.1 "/")) = (name, lines) :: rest)
    (hparse : commaThenPipe lines = .ok df) :
    extract_columns_from_zip z req = selectRequired z.path df req := by
  unfold extract_columns_from_zip
  rw [hmem]
  show (match commaThenPipe lines with
    | .error e => Except.error (ZipErr.parse e)
    | .ok df => selectRequired z.path df req) = _
  rw [hparse]

/-- Stepping lemma: when both delimiter attempts on the first
non-directory member fail, the parse failure is surfaced. -/
theorem extract_eq_parse_error (z : ZipArchive) (req : List String)
    (name : String) (lines : List String) (rest : List (String × List String))
    (e : CsvErr)
    (hmem : z.members.filter (fun m => !(strEndsWith m.1 "/")) = (name, lines) :: rest)
    (hparse : commaThenPipe lines = .error e) :
    extract_columns_from_zip z req = .error (.parse e) := by
  unfold extract_columns_from_zip
  rw [hmem]
  show (match commaThenPipe lines with
    | .error e => Except.error (ZipErr.parse e)
    | .ok df => selectRequired z.path df req) = _
  rw [hparse]

/-- Stepping lemma: an archive with no non-directory member raises the
empty-archive error. -/
theorem extract_eq_empty_error (z : ZipArchive) (req : List String)
    (hmem : z.members.filter (fun m => !(strEndsWith m.1 "/")) = []) :
    extract_columns_from_zip z req = .error (.emptyArchive z.path) := by
  unfold extract_columns_from_zip
  rw [hmem]

/-! Claims -/

/-- C1. For every ZIP archive whose member parses into a table and
every requested column list: if some requested name is absent from the
table's columns under case-insensitive matching, `extract_columns_from_zip`
fails with an error naming exactly the absent columns — all of them at
once, not just the first; and if no requested name is absent, no
missing-columns error is raised. -/
theorem extract_columns_from_zip_reports_all_missing
    (z : ZipArchive) (req : List String)
    (name : String) (lines : List String) (rest : List (String × List String))
    (df : RawTable)
    (hmem : z.members.filter (fun m => !(strEndsWith m.1 "/")) = (name, lines) :: rest)
    (hparse : commaThenPipe lines = .ok df) :
    ((∃ col ∈ req, ∀ c ∈ df.columns, strUpper c ≠ strUpper col) →
      ∃ names,
        extract_columns_from_zip z req = .error (.missingColumns z.path names) ∧
        ∀ col, col ∈ names ↔ (col ∈ req ∧ ∀ c ∈ df.columns, strUpper c ≠ strUpper col))
    ∧ ((∀ col ∈ req, ∃ c ∈ df.columns, strUpper c = strUpper col) →
      ∀ p ns, extract_columns_from_zip z req ≠ .error (.missingColumns p ns)) := by
  have key := extract_eq_select z req name lines rest df hmem hparse
  constructor
  · rintro ⟨col, hcol, habs⟩
    have hmiss : req.filter (fun col => (colMapLookup df (strUpper col)).isNone) ≠ [] := by
      intro hnil
      have hin : col ∈ req.filter (fun col => (colMapLookup df (strUpper col)).isNone) := by
        rw [List.mem_filter]
        exact ⟨hcol, (colMapLookup_isNone_iff df (strUpper col)).2 habs⟩
      rw [hnil] at hin
      exact absurd hin (List.not_mem_nil col)
    refine ⟨req.filter (fun col => (colMapLookup df (strUpper col)).isNone), ?_, ?_⟩
    · rw [key]
      unfold selectRequired
      simp only [if_neg hmiss]
    · intro c
      rw [List.mem_filter, colMapLookup_isNone_iff]
  · intro hall p ns
    have hmiss : req.filter (fun col => (colMapLookup df (strUpper col)).isNone) = [] := by
      rw [List.filter_eq_nil_iff]
      intro c hc hno
      obtain ⟨src, hsrc, hup⟩ := hall c hc
      exact (colMapLookup_isNone_iff df (strUpper c)).1 hno src hsrc hup
    rw [key]
    unfold selectRequired
    simp only [if_pos hmiss]
    intro h
    exact Except.noConfusion h

/-- Concrete instance for C1: a two-column member with header
`Year,Month`; requesting `Foo`, `Year`, `Bar` fails naming both `Foo`
and `Bar` (and not `Year`). -/
def wZipC1 : ZipArchive := ⟨"w.zip", [("d.csv", ["Year,Month", "2019,1"])]⟩

/-- Witness for C1 at a concrete archive and request. -/
theorem extract_columns_from_zip_reports_all_missing_witness :
    ∃ names,
      extract_columns_from_zip wZipC1 ["Foo", "Year", "Bar"] =
        .error (.missingColumns "w.zip" names) ∧
      "Foo" ∈ names ∧ "Bar" ∈ names ∧ "Year" ∉ names := by
  obtain ⟨names, h1, h2⟩ :=
    (extract_columns_from_zip_reports_all_missing wZipC1 ["Foo", "Year", "Bar"]
      "d.csv" ["Year,Month", "2019,1"] [] ⟨["Year", "Month"], [["2019", "1"]]⟩
      (by decide) (by decide)).1 ⟨"Foo", by decide, by decide⟩
  refine ⟨names, h1, (h2 "Foo").2 ⟨by decide, by decide⟩,
    (h2 "Bar").2 ⟨by decide, by decide⟩, ?_⟩
  intro hmem
  exact ((h2 "Year").1 hmem).2 "Year" (by decide) rfl

/-- Concrete archive for C2: the single member's header is the
originally-cased `OriginAirportID`. -/
def c2Zip : ZipArchive := ⟨"c2.zip", [("d.csv", ["OriginAirportID", "12345"])]⟩

/-- C2, counterexample. Requesting `originairportid` from a member
whose header spells `OriginAirportID` yields a dataset whose column is
keyed `originairportid` — the requested casing, which differs from the
source's original casing, refuting the claim that the output presents
columns under the source casing. -/
theorem extract_output_not_source_casing_cex :
    extract_columns_from_zip c2Zip ["originairportid"] =
      .ok ⟨[("originairportid", ["12345"])]⟩ ∧
    "originairportid" ≠ "OriginAirportID" := by
  exact ⟨by decide, by decide⟩

/-- C2, amended. Matching is case-insensitive, but the output keys
each selected column by the REQUESTED name (the casing used in the
request); the source's original casing is used only to resolve which
source column supplies the values. -/
theorem extract_output_keys_use_request_casing (z : ZipArchive) (req : List String)
    (name : String) (lines : List String) (rest : List (String × List String))
    (df : RawTable)
    (hmem : z.members.filter (fun m => !(strEndsWith m.1 "/")) = (name, lines) :: rest)
    (hparse : commaThenPipe lines = .ok df)
    (hall : ∀ col ∈ req, ∃ c ∈ df.columns, strUpper c = strUpper col) :
    extract_columns_from_zip z req =
      .ok ⟨req.map
        (fun col => (col, df.getCol ((colMapLookup df (strUpper col)).getD "")))⟩ := by
  rw [extract_eq_select z req name lines rest df hmem hparse]
  have hmiss : req.filter (fun col => (colMapLookup df (strUpper col)).isNone) = [] := by
    rw [List.filter_eq_nil_iff]
    intro c hc hno
    obtain ⟨src, hsrc, hup⟩ := hall c hc
    exact (colMapLookup_isNone_iff df (strUpper c)).1 hno src hsrc hup
  unfold selectRequired
  simp only [if_pos hmiss]

/-- Concrete archive for the C2 witness. -/
def c2wZip : ZipArchive :=
  ⟨"m.zip", [("d.csv", ["OriginAirportID,Year", "12345,2019"])]⟩

/-- Witness for the amended C2 at a concrete archive: requested casings
`ORIGINAIRPORTID` and `year` come back as the output keys. -/
theorem extract_output_keys_use_request_casing_witness :
    extract_columns_from_zip c2wZip ["ORIGINAIRPORTID", "year"] =
      .ok ⟨[("ORIGINAIRPORTID", ["12345"]), ("year", ["2019"])]⟩ := by
  have h := extract_output_keys_use_request_casing c2wZip ["ORIGINAIRPORTID", "year"]
    "d.csv" ["OriginAirportID,Year", "12345,2019"] []
    ⟨["OriginAirportID", "Year"], [["12345", "2019"]]⟩
    (by decide) (by decide) (by decide)
  rw [h]
  decide

/-- Concrete archive for the C6 counterexample: a genuinely
pipe-delimited member none of whose lines contains a comma. -/
def c6Zip : ZipArchive := ⟨"p.zip", [("data.dat", ["A|B", "1|2"])]⟩

/-- C6, counterexample. The member is pipe-delimited (the pipe parse
yields the two-column table), yet extraction does NOT recover it: the
comma attempt succeeds vacuously as a single column, the fallback never
runs, and the requested columns are reported missing. -/
theorem zip_pipe_member_not_recovered_cex :
    read_csv '|' ["A|B", "1|2"] = .ok ⟨["A", "B"], [["1", "2"]]⟩ ∧
    read_csv ',' ["A|B", "1|2"] = .ok ⟨["A|B"], [["1|2"]]⟩ ∧
    extract_columns_from_zip c6Zip ["A", "B"] =
      .error (.missingColumns "p.zip" ["A", "B"]) := by
  exact ⟨by decide, by decide, by decide⟩

/-- C6, amended. `extract_columns_from_zip` first attempts a
comma-delimited parse of the first non-directory member; only on a
parsing exception does it reset the stream and retry with pipe; there is
no third fallback, so a failure of the pipe attempt is surfaced.  A
pipe-delimited member is recovered via the fallback exactly when the
comma attempt raises, which happens only when some later data row has
more comma-fields than the parse expects — more than both the header
and the first data row (pandas otherwise succeeds, treating extra
leading fields of the first data row as an implicit index); when the
comma attempt succeeds, its result — however mis-delimited — is used
as-is and the fallback is not triggered. -/
theorem zip_parse_comma_then_pipe (z : ZipArchive) (req : List String)
    (name : String) (lines : List String) (rest : List (String × List String))
    (hmem : z.members.filter (fun m => !(strEndsWith m.1 "/")) = (name, lines) :: rest) :
    (∀ t, read_csv ',' lines = .ok t →
        extract_columns_from_zip z req = selectRequired z.path t req)
    ∧ (∀ e, read_csv ',' lines = .error e →
        (∀ t, read_csv '|' lines = .ok t →
          extract_columns_from_zip z req = selectRequired z.path t req)
        ∧ (∀ e2, read_csv '|' lines = .error e2 →
          extract_columns_from_zip z req = .error (.parse e2))) := by
  refine ⟨fun t ht => ?_, fun e he => ⟨fun t ht => ?_, fun e2 he2 => ?_⟩⟩
  · exact extract_eq_select z req name lines rest t hmem
      (by unfold commaThenPipe; rw [ht])
  · exact extract_eq_select z req name lines rest t hmem
      (by unfold commaThenPipe; rw [he, ht])
  · exact extract_eq_parse_error z req name lines rest e2 hmem
      (by unfold commaThenPipe; rw [he, he2])

/-- Concrete archive for the C6 witness: pipe-delimited member whose
comma attempt raises — its THIRD line has two comma-fields, more than
both the one-field header and the one-field first data row, so pandas
raises rather than inferring an implicit index. -/
def c6wZip : ZipArchive :=
  ⟨"r.zip", [("data.dat", ["Col1|Col2", "1|2", "x,y|z"])]⟩

/-- Witness for the amended C6: the comma attempt fails, the pipe
fallback recovers the table, and the extraction succeeds from it. -/
theorem zip_parse_comma_then_pipe_witness :
    read_csv ',' ["Col1|Col2", "1|2", "x,y|z"] = .error .parserError ∧
    extract_columns_from_zip c6wZip ["col1"] =
      selectRequired "r.zip" ⟨["Col1", "Col2"], [["1", "2"], ["x,y", "z"]]⟩ ["col1"] ∧
    extract_columns_from_zip c6wZip ["col1"] = .ok ⟨[("col1", ["1", "x,y"])]⟩ := by
  refine ⟨by decide, ((zip_parse_comma_then_pipe c6wZip ["col1"] "data.dat"
    ["Col1|Col2", "1|2", "x,y|z"] [] (by decide)).2 .parserError (by decide)).1
    ⟨["Col1", "Col2"], [["1", "2"], ["x,y", "z"]]⟩ (by decide), by decide⟩

/-- C7. The columns of every successfully extracted dataset appear
in the order of the requested column list, not in source order. -/
theorem extract_columns_request_order (z : ZipArchive) (req : List String)
    (ds : Dataset) (h : extract_columns_from_zip z req = .ok ds) :
    ds.cols.map Prod.fst = req := by
  rcases hfil : z.members.filter (fun m => !(strEndsWith m.1 "/")) with _ | ⟨⟨nm, lines⟩, rest⟩
  · rw [extract_eq_empty_error z req hfil] at h
    exact Except.noConfusion h
  · rcases hp : commaThenPipe lines with e | df
    · rw [extract_eq_parse_error z req nm lines rest e hfil hp] at h
      exact Except.noConfusion h
    · rw [extract_eq_select z req nm lines rest df hfil hp] at h
      unfold selectRequired at h
      split at h
      · rw [Except.ok.injEq] at h
        rw [← h]
        simp only [List.map_map]
        exact List.map_id req
      · exact Except.noConfusion h

/-- Concrete archive for the C7 witness: the spec's `q.zip` scenario. -/
def qZip : ZipArchive :=
  ⟨"q.zip", [("data.csv", ["OriginAirportID,Passengers,Year", "12345,42,2019"])]⟩

/-- Witness for C7: requesting `originairportid`, `YEAR` from a member
with header `OriginAirportID,Passengers,Year` and one row
`12345,42,2019` yields exactly the two requested columns, in request
order. -/
theorem extract_columns_request_order_witness :
    extract_columns_from_zip qZip ["originairportid", "YEAR"] =
      .ok ⟨[("originairportid", ["12345"]), ("YEAR", ["2019"])]⟩ ∧
    (Dataset.mk [("originairportid", ["12345"]), ("YEAR", ["2019"])]).cols.map Prod.fst =
      ["originairportid", "YEAR"] :=
  ⟨by decide, extract_columns_request_order qZip _ _ (by decide)⟩

/-- C8. `extract_columns_from_zip` is deterministic: two calls on
the same (unchanged) archive bytes and the same requested columns yield
the identical outcome, result or failure. -/
theorem extract_columns_from_zip_deterministic (z1 z2 : ZipArchive)
    (r1 r2 : List String) (hz : z1 = z2) (hr : r1 = r2) :
    extract_columns_from_zip z1 r1 = extract_columns_from_zip z2 r2 := by
  rw [hz, hr]

/-- Concrete archive for the C8 witness. -/
def c8Zip : ZipArchive := ⟨"d.zip", [("d.csv", ["A,B", "1,2"])]⟩

/-- Witness for C8 at a concrete archive and request. -/
theorem extract_columns_from_zip_deterministic_witness :
    extract_columns_from_zip c8Zip ["a"] = extract_columns_from_zip c8Zip ["a"] :=
  extract_columns_from_zip_deterministic c8Zip c8Zip ["a"] ["a"] rfl rfl

/-- C10. The non-empty precondition on the required column list is
not enforced: on any archive whose member parses, an empty request
raises no error and returns a dataset with zero columns. -/
theorem extract_empty_request_ok (z : ZipArchive)
    (name : String) (lines : List String) (rest : List (String × List String))
    (df : RawTable)
    (hmem : z.members.filter (fun m => !(strEndsWith m.1 "/")) = (name, lines) :: rest)
    (hparse : commaThenPipe lines = .ok df) :
    extract_columns_from_zip z [] = .ok ⟨[]⟩ := by
  rw [extract_eq_select z [] name lines rest df hmem hparse]
  rfl

/-- Concrete archive for the C10 witness. -/
def c10Zip : ZipArchive := ⟨"e.zip", [("d.csv", ["A,B", "1,2"])]⟩

/-- Witness for C10 at a concrete archive. -/
theorem extract_empty_request_ok_witness :
    extract_columns_from_zip c10Zip [] = .ok ⟨[]⟩ :=
  extract_empty_request_ok c10Zip "d.csv" ["A,B", "1,2"] []
    ⟨["A", "B"], [["1", "2"]]⟩ (by decide) (by decide)

/-- Stepping lemma: for an R-object extension the generic loader
delegates to `_load_r_file`. -/
theorem load_table_any_r_ext (f : AnyFile)
    (hext : strLower (fileExt f.path) = ".rds" ∨ strLower (fileExt f.path) = ".rdata"
      ∨ strLower (fileExt f.path) = ".rda" ∨ strLower (fileExt f.path) = ".r") :
    _load_table_any f = (_load_r_file f.toRFile).mapError .r := by
  unfold _load_table_any
  rcases hext with h | h | h | h <;>
    rw [h] <;>
    rw [if_neg (by decide), if_neg (by decide), if_pos (by decide)]

/-- Stepping lemma: for an unrecognized extension the generic loader
tries comma-delimited parsing, then the JSON-array interpretation, then
raises the unsupported-format error carrying the path and the JSON
attempt's failure. -/
theorem load_table_any_unrecognized (f : AnyFile)
    (hext : strLower (fileExt f.path) ∉
      ([".csv", ".tsv", ".dta", ".rds", ".rdata", ".rda", ".r"] : List String)) :
    _load_table_any f =
      match read_csv ',' f.textLines with
      | .ok t => .ok t
      | .error _ =>
        match f.jsonTable with
        | .ok t => .ok t
        | .error e => .error (.unsupported f.path e) := by
  unfold _load_table_any
  rw [if_neg, if_neg, if_neg]
  · rintro (h | h | h | h) <;> exact hext (by rw [h]; decide)
  · intro h
    exact hext (by rw [h]; decide)
  · rintro (h | h) <;> exact hext (by rw [h]; decide)

/-- Stepping lemma: when the `try` block of `_load_r_file` fails with
`e` on a gzip-signed file, the result is decided by the gzip-text
fallback, a fallback failure pairing with `e` in the combined error. -/
theorem load_r_file_fallback (f : RFile) (e : RErr) (lines : List String)
    (ha : rAttempt f = .error e) (hgz : f.gzipContent = some lines) :
    _load_r_file f =
      match gzipTextFallback lines with
      | .ok t => .ok t
      | .error e2 => .error (.combined e e2) := by
  unfold _load_r_file
  rw [ha]
  show (match f.gzipContent with
    | some lines =>
      match gzipTextFallback lines with
      | .ok t => Except.ok t
      | .error e2 => Except.error (RErr.combined e e2)
    | none => Except.error e) = _
  rw [hgz]

/-- Concrete file for the C3 witness: the spec's `x.rds` scenario — not
deserializable as an R object, but gzip-signed with pipe-delimited text
whose comma parse raises: the third line has two comma-fields, more
than both the one-field header and the one-field first data row, so
pandas raises rather than inferring an implicit index. -/
def c3File : AnyFile :=
  { readr := .error "unable to read R file"
    gzipContent := some ["A|B", "1|2", "3,0|4"]
    path := "x.rds"
    textLines := []
    stata := .error "not stata"
    jsonTable := .error "not json" }

/-- C3. For an R-object extension whose deserialization fails on a
gzip-signed file, `load_any` decompresses and parses the bytes as
delimited text trying comma then pipe, returning that table rather than
raising; and if that fallback also fails, the raised error carries both
the original deserialization error and the fallback error. -/
theorem load_any_r_gzip_fallback (f : AnyFile) (e : String) (lines : List String)
    (hext : strLower (fileExt f.path) = ".rds" ∨ strLower (fileExt f.path) = ".rdata"
      ∨ strLower (fileExt f.path) = ".rda" ∨ strLower (fileExt f.path) = ".r")
    (hreadr : f.readr = .error e)
    (hgz : f.gzipContent = some lines) :
    (∀ t, gzipTextFallback lines = .ok t → _load_table_any f = .ok t)
    ∧ (∀ e2, gzipTextFallback lines = .error e2 →
        _load_table_any f = .error (.r (.combined (.readr e) e2))) := by
  have hrd : f.toRFile.readr = .error e := hreadr
  have hgz2 : f.toRFile.gzipContent = some lines := hgz
  have ha : rAttempt f.toRFile = .error (.readr e) := by
    unfold rAttempt
    rw [hrd]
  constructor
  · intro t ht
    rw [load_table_any_r_ext f hext,
      load_r_file_fallback f.toRFile (.readr e) lines ha hgz2, ht]
    rfl
  · intro e2 ht
    rw [load_table_any_r_ext f hext,
      load_r_file_fallback f.toRFile (.readr e) lines ha hgz2, ht]
    rfl

/-- Witness for C3 at the concrete `x.rds` file: the comma attempt on
the decompressed text fails, the pipe attempt parses it, and `load_any`
returns that table. -/
theorem load_any_r_gzip_fallback_witness :
    read_csv ',' ["A|B", "1|2", "3,0|4"] = .error .parserError ∧
    gzipTextFallback ["A|B", "1|2", "3,0|4"] =
      .ok ⟨["A", "B"], [["1", "2"], ["3,0", "4"]]⟩ ∧
    _load_table_any c3File = .ok ⟨["A", "B"], [["1", "2"], ["3,0", "4"]]⟩ :=
  ⟨by decide, by decide,
    (load_any_r_gzip_fallback c3File "unable to read R file" ["A|B", "1|2", "3,0|4"]
      (Or.inl (by decide)) rfl rfl).1
      ⟨["A", "B"], [["1", "2"], ["3,0", "4"]]⟩ (by decide)⟩

/-- Concrete file for the C4 counterexample: empty content, so the
comma attempt raises the empty-data error. -/
def c4File1 : AnyFile :=
  { readr := .error "not an R file"
    gzipContent := none
    path := "mystery.xyz"
    textLines := []
    stata := .error "not stata"
    jsonTable := .error "Expecting value: line 1 column 1 (char 0)" }

/-- Same path and same JSON failure, but the comma attempt now raises
the parser error: the third line has two comma-fields, more than both
the one-field header and the one-field first data row, so pandas raises
rather than inferring an implicit index. -/
def c4File2 : AnyFile := { c4File1 with textLines := ["a", "b", "c,d"] }

/-- C4, counterexample. Two unrecognized-extension files whose
comma-parse failures differ (empty-data vs parser error) while the JSON
failure is the same raise the IDENTICAL format error: the raised error
carries the path and the JSON failure only, so it cannot name the
comma-parse failure, refuting the claim that both underlying failures
are reported. -/
theorem load_table_any_error_drops_comma_failure_cex :
    read_csv ',' c4File1.textLines = .error .emptyData ∧
    read_csv ',' c4File2.textLines = .error .parserError ∧
    _load_table_any c4File1 =
      .error (.unsupported "mystery.xyz" "Expecting value: line 1 column 1 (char 0)") ∧
    _load_table_any c4File2 =
      .error (.unsupported "mystery.xyz" "Expecting value: line 1 column 1 (char 0)") := by
  exact ⟨by decide, by decide, by decide, by decide⟩

/-- C4, amended. For an unrecognized extension, `load_any` attempts
comma-delimited parsing, then the whole file as a JSON array of row
records; if both fail it raises a format error naming the path and the
JSON-parse failure — the comma-parse failure is discarded and does not
appear in the error. -/
theorem load_table_any_unsupported_names_json_error (f : AnyFile)
    (ec : CsvErr) (e : String)
    (hext : strLower (fileExt f.path) ∉
      ([".csv", ".tsv", ".dta", ".rds", ".rdata", ".rda", ".r"] : List String))
    (hcsv : read_csv ',' f.textLines = .error ec)
    (hjson : f.jsonTable = .error e) :
    _load_table_any f = .error (.unsupported f.path e) := by
  rw [load_table_any_unrecognized f hext, hcsv, hjson]

/-- Witness for the amended C4 at a concrete file. -/
theorem load_table_any_unsupported_names_json_error_witness :
    _load_table_any c4File2 =
      .error (.unsupported "mystery.xyz" "Expecting value: line 1 column 1 (char 0)") :=
  load_table_any_unsupported_names_json_error c4File2 .parserError
    "Expecting value: line 1 column 1 (char 0)" (by decide) (by decide) rfl

/-- Spec-side reference for C5: "the table obtained by parsing the
decompressed bytes directly with the same delimiter". -/
def parseDecompressedDirectly (sep : Char) (lines : List String) :
    Except CsvErr RawTable :=
  read_csv sep lines

/-- C5. For a `.csv`/`.tsv`-named file whose byte stream starts with
the gzip signature, `load_any` decompresses transparently before
parsing, and its outcome equals parsing the decompressed bytes directly
with the delimiter implied by the extension. -/
theorem load_table_any_gzip_csv_transparent (f : AnyFile) (lines : List String)
    (hext : strLower (fileExt f.path) = ".csv" ∨ strLower (fileExt f.path) = ".tsv")
    (hgz : f.gzipContent = some lines) :
    _load_table_any f =
      (parseDecompressedDirectly
        (if strLower (fileExt f.path) = ".csv" then ',' else '\t') lines).mapError .csv := by
  unfold _load_table_any parseDecompressedDirectly
  rw [if_pos hext, hgz]

/-- Concrete file for the C5 witness: gzip-signed bytes named `.csv`
whose decompressed lines are comma-delimited. -/
def c5File : AnyFile :=
  { readr := .error "not an R file"
    gzipContent := some ["A,B", "1,2"]
    path := "data.csv"
    textLines := []
    stata := .error "not stata"
    jsonTable := .error "not json" }

/-- Witness for C5 at a concrete gzip-compressed `.csv` file. -/
theorem load_table_any_gzip_csv_transparent_witness :
    _load_table_any c5File =
      (parseDecompressedDirectly
        (if strLower (fileExt c5File.path) = ".csv" then ',' else '\t')
        ["A,B", "1,2"]).mapError .csv ∧
    _load_table_any c5File = .ok ⟨["A", "B"], [["1", "2"]]⟩ :=
  ⟨load_table_any_gzip_csv_transparent c5File ["A,B", "1,2"]
    (Or.inl (by decide)) rfl, by decide⟩

/-- C9. The gzip-text fallback of `_load_r_file` runs whenever ANY
step of the `try` block raises — including the case where
deserialization succeeds but no DataFrame-like structure is found and
coercion fails — so a successful gzip-text parse masks the
ambiguous-structure condition instead of raising it. -/
theorem load_r_file_fallback_masks_no_dataframe (f : RFile)
    (objs : List (String × RObj)) (lines : List String) (t : RawTable)
    (hreadr : f.readr = .ok objs)
    (hno : loadRObjects objs = .error .noDataFrame)
    (hgz : f.gzipContent = some lines)
    (hfb : gzipTextFallback lines = .ok t) :
    _load_r_file f = .ok t := by
  have ha : rAttempt f = .error .noDataFrame := by
    unfold rAttempt
    rw [hreadr]
    exact hno
  rw [load_r_file_fallback f .noDataFrame lines ha hgz, hfb]

/-- Concrete file for the C9 witness: deserialization succeeds but
yields only an object that cannot be coerced to a DataFrame, while the
gzip-signed bytes parse as comma text. -/
def c9File : RFile :=
  { readr := .ok [("x", .nonDf (.error "could not coerce"))]
    gzipContent := some ["A,B", "1,2"] }

/-- Witness for C9 at a concrete file. -/
theorem load_r_file_fallback_masks_no_dataframe_witness :
    _load_r_file c9File = .ok ⟨["A", "B"], [["1", "2"]]⟩ :=
  load_r_file_fallback_masks_no_dataframe c9File
    [("x", .nonDf (.error "could not coerce"))] ["A,B", "1,2"]
    ⟨["A", "B"], [["1", "2"]]⟩ rfl (by decide) rfl (by decide)

end AirlinesMerger
